import Mathlib

/-!
# Verification of the mock disaster-prediction service (`src/main.py`)

A shallow embedding of the Python source.  JSON values are modelled by `Json`,
Python numbers by `PyNum` (which keeps the `int` / `float` distinction, since
Python renders `60` and `60.0` differently), Python `float` values by `ℚ`, and
code that can raise an exception returns `Except String _` carrying the
exception class name.  Each Python function of the source is translated to a
Lean definition of the same name.
-/

set_option maxRecDepth 4096

namespace DisasterPrediction

/-- A Python number: either an `int` or a `float` (modelled as a rational). -/
inductive PyNum where
  | int (n : ℤ)
  | float (q : ℚ)
  deriving Repr, DecidableEq

/-- A JSON value as Python's `json` module produces it (`dict` preserves
insertion order, modelled as an association list). -/
inductive Json where
  | null
  | bool (b : Bool)
  | num (n : PyNum)
  | str (s : String)
  | arr (l : List Json)
  | obj (l : List (String × Json))
  deriving Repr, BEq

/-- Python truthiness of a JSON-like value: `None`, `False`, `0`, `""`, `[]`
and `\x7b\x7d` are falsy, everything else truthy. -/
def jsonTruthy : Json → Bool
  | .null => false
  | .bool b => b
  | .num (.int n) => n ≠ 0
  | .num (.float q) => q ≠ 0
  | .str s => s ≠ ""
  | .arr l => ¬ l.isEmpty
  | .obj l => ¬ l.isEmpty

/-- Truthiness of an optional value (`None` is falsy). -/
def pyTruthyOpt : Option Json → Bool
  | none => false
  | some j => jsonTruthy j

/-- Key lookup on a JSON object (`none` when the key is absent or the value is
not a `dict`); used for `'k' in data` and `data['k']` on the request body. -/
def jLookup (j : Json) (key : String) : Option Json :=
  match j with
  | .obj l => (l.find? fun kv => kv.1 = key).map (·.2)
  | _ => none

/-- Result of Python's `float(x)` conversion. -/
inductive FloatRes where
  | ok (q : ℚ)
  | valueError
  | typeError
  deriving Repr, DecidableEq

/-- Digits of a decimal string, most significant first, as a natural number. -/
def digitsVal (l : List Char) : ℕ :=
  l.foldl (fun acc c => 10 * acc + (c.toNat - '0'.toNat)) 0

/-- Parse the decimal-literal forms accepted by Python's `float()` on strings:
optional sign, digits with an optional fractional part, optional exponent.
(The rarely used `inf` / `nan` spellings, underscores between digits and
surrounding whitespace are outside the modelled domain.) -/
def parseFloat? (s : String) : Option ℚ :=
  let afterSign : List Char → (ℚ × List Char) := fun l =>
    match l with
    | '-' :: r => (-1, r)
    | '+' :: r => (1, r)
    | l => (1, l)
  let (sign, l1) := afterSign s.data
  let (ipart, l2) := l1.span Char.isDigit
  let (fpart, l3) :=
    match l2 with
    | '.' :: r => r.span Char.isDigit
    | _ => ([], l2)
  if ipart.isEmpty ∧ fpart.isEmpty then none
  else
    let mantissa : ℚ :=
      (digitsVal ipart : ℚ) + (digitsVal fpart : ℚ) / (10 : ℚ) ^ fpart.length
    match l3 with
    | [] => some (sign * mantissa)
    | 'e' :: r | 'E' :: r =>
      let (esign, r1) := afterSign r
      let (edigits, r2) := r1.span Char.isDigit
      if edigits.isEmpty ∨ ¬ r2.isEmpty then none
      else some (sign * mantissa * (10 : ℚ) ^ ((esign * digitsVal edigits : ℚ).num))
    | _ => none

/-- Python's `float(x)`: numbers and booleans convert, strings are parsed
(failure raises `ValueError`), any other type raises `TypeError`. -/
def pyFloat : Json → FloatRes
  | .num (.int n) => .ok (n : ℚ)
  | .num (.float q) => .ok q
  | .bool b => .ok (if b then 1 else 0)
  | .str s =>
    match parseFloat? s with
    | some q => .ok q
    | none => .valueError
  | .null => .typeError
  | .arr _ => .typeError
  | .obj _ => .typeError

/-- Python `repr` of a finite-decimal float value: the shortest decimal
rendering, always with at least one fractional digit (`repr(1.0) = "1.0"`).
Values whose denominator does not divide a power of ten fall back to a
fraction rendering; they do not arise in this code base. -/
def floatRepr (q : ℚ) : String :=
  match (List.range 18).find? (fun k => 10 ^ k % q.den = 0) with
  | some k =>
    let m : ℕ := q.num.natAbs * 10 ^ k / q.den
    let sign := if q.num < 0 then "-" else ""
    if k = 0 then sign ++ toString m ++ ".0"
    else
      let fracStr := toString (m % 10 ^ k)
      let fracPad := String.mk (List.replicate (k - fracStr.length) '0') ++ fracStr
      sign ++ toString (m / 10 ^ k) ++ "." ++ fracPad
  | none => toString q.num ++ "/" ++ toString q.den

/-- Python `str` of a number: `int`s without a decimal point, `float`s with. -/
def pyNumStr : PyNum → String
  | .int n => toString n
  | .float q => floatRepr q

mutual

/-- Python `repr` of a JSON-like value. -/
def pyRepr : Json → String
  | .null => "None"
  | .bool true => "True"
  | .bool false => "False"
  | .num n => pyNumStr n
  | .str s => "'" ++ s ++ "'"
  | .arr l => "[" ++ pyReprList l ++ "]"
  | .obj l => "\x7b" ++ pyReprObj l ++ "\x7d"

/-- `repr` of list elements, comma separated. -/
def pyReprList : List Json → String
  | [] => ""
  | [x] => pyRepr x
  | x :: y :: xs => pyRepr x ++ ", " ++ pyReprList (y :: xs)

/-- `repr` of dict entries, comma separated. -/
def pyReprObj : List (String × Json) → String
  | [] => ""
  | [(k, v)] => "'" ++ k ++ "': " ++ pyRepr v
  | (k, v) :: y :: xs => "'" ++ k ++ "': " ++ pyRepr v ++ ", " ++ pyReprObj (y :: xs)

end

/-- Python `str` as used by f-string interpolation: identical to `repr`
except that strings are embedded without quotes. -/
def pyStr (j : Json) : String :=
  match j with
  | .str s => s
  | j => pyRepr j

/-- Round to the nearest integer, ties to even — the rounding Python's
`round` uses. -/
def roundHalfEven (x : ℚ) : ℤ :=
  let fl := ⌊x⌋
  let r := x - fl
  if r < 1 / 2 then fl
  else if 1 / 2 < r then fl + 1
  else if fl % 2 = 0 then fl else fl + 1

/-- Python `round(x, 1)`: ints and bools stay integral, floats are rounded to
one decimal place, any other type raises `TypeError`. -/
def pyRound1 : Json → Except String Json
  | .num (.int n) => .ok (.num (.int n))
  | .num (.float q) => .ok (.num (.float ((roundHalfEven (q * 10) : ℚ) / 10)))
  | .bool b => .ok (.num (.int (if b then 1 else 0)))
  | _ => .error "TypeError"

/-- Python `x.get(key, default)`: defaulting lookup on a dict; on any other
type the attribute access raises `AttributeError`. -/
def pyGet (j : Json) (key : String) (dflt : Json) : Except String Json :=
  match j with
  | .obj _ => .ok ((jLookup j key).getD dflt)
  | _ => .error "AttributeError"

/-- Python `x[0]`: first element of a list or string (`IndexError` when
empty), `KeyError` on a JSON dict (whose keys are strings, never the int 0),
`TypeError` on non-subscriptable values. -/
def pyIndex0 : Json → Except String Json
  | .arr [] => .error "IndexError"
  | .arr (x :: _) => .ok x
  | .obj _ => .error "KeyError"
  | .str s => if s = "" then .error "IndexError" else .ok (.str (String.mk [s.data.headD 'x']))
  | _ => .error "TypeError"

/-- The record `parse_weather_data` builds (a six-key Python dict; being
non-empty it is always truthy). Field values are whatever JSON the payload
supplied, as the Python code passes them through untyped. -/
structure WeatherParams where
  temperature : Json
  humidity : Json
  wind_speed : Json
  pressure : Json
  cloud_coverage : Json
  description : Json
  deriving Repr, BEq

/-- `parse_weather_data` of `src/main.py`: falsy input returns `None`;
otherwise the six fields are extracted with defaulting lookups inside a
`try` that converts `KeyError` / `IndexError` to `None` and lets any other
exception escape. -/
def parse_weather_data (weather_data : Option Json) : Except String (Option WeatherParams) :=
  if ¬ pyTruthyOpt weather_data then .ok none
  else
    match weather_data with
    | none => .ok none
    | some wd =>
      let body : Except String WeatherParams := do
        let tempRaw ← pyGet wd "main" (.obj []) >>= fun m => pyGet m "temp" (.num (.int 0))
        let temperature ← pyRound1 tempRaw
        let humidity ← pyGet wd "main" (.obj []) >>= fun m => pyGet m "humidity" (.num (.int 0))
        let wind_speed ← pyGet wd "wind" (.obj []) >>= fun m => pyGet m "speed" (.num (.int 0))
        let pressure ← pyGet wd "main" (.obj []) >>= fun m => pyGet m "pressure" (.num (.int 0))
        let cloud_coverage ← pyGet wd "clouds" (.obj []) >>= fun m => pyGet m "all" (.num (.int 0))
        let description ← pyGet wd "weather" (.arr [.obj []]) >>= pyIndex0 >>=
          fun w0 => pyGet w0 "description" (.str "unknown")
        pure ⟨temperature, humidity, wind_speed, pressure, cloud_coverage, description⟩
      match body with
      | .ok p => .ok (some p)
      | .error e => if e = "KeyError" ∨ e = "IndexError" then .ok none else .error e

/-! ## SHA-256 (model of `hashlib.sha256(...).hexdigest()`)

Bytes and 32-bit words are natural numbers, reduced `% 2 ^ 32` where the
machine arithmetic wraps.  The round and initial constants are derived from
their defining property (fractional parts of the cube / square roots of the
first primes, FIPS 180-4), not transcribed. -/

/-- The first 64 primes, source of the SHA-256 constants. -/
def sha_primes : List ℕ :=
  [2, 3, 5, 7, 11, 13, 17, 19, 23, 29, 31, 37, 41, 43, 47, 53,
   59, 61, 67, 71, 73, 79, 83, 89, 97, 101, 103, 107, 109, 113, 127, 131,
   137, 139, 149, 151, 157, 163, 167, 173, 179, 181, 191, 193, 197, 199, 211, 223,
   227, 229, 233, 239, 241, 251, 257, 263, 269, 271, 277, 281, 283, 293, 307, 311]

/-- Binary search for the integer cube root: returns `lo` with
`lo ^ 3 ≤ n < hi ^ 3` once the bracket closes; 200 halvings suffice for
every argument used here. -/
def cbrtAux : ℕ → ℕ → ℕ → ℕ → ℕ
  | 0, _, lo, _ => lo
  | fuel + 1, n, lo, hi =>
    if hi ≤ lo + 1 then lo
    else
      let mid := (lo + hi) / 2
      if mid ^ 3 ≤ n then cbrtAux fuel n mid hi else cbrtAux fuel n lo mid

/-- Integer cube root. -/
def cbrt (n : ℕ) : ℕ := cbrtAux 200 n 0 (n + 2)

/-- SHA-256 round constants: first 32 bits of the fractional part of the cube
root of each of the first 64 primes, `⌊p ^ (1/3) * 2 ^ 32⌋ % 2 ^ 32`. -/
def shaK : List ℕ := sha_primes.map fun p => cbrt (p * 2 ^ 96) % 2 ^ 32

/-- The eight 32-bit working variables of SHA-256. -/
structure Hash8 where
  a : ℕ
  b : ℕ
  c : ℕ
  d : ℕ
  e : ℕ
  f : ℕ
  g : ℕ
  h : ℕ
  deriving Repr, DecidableEq

/-- First 32 fractional-part bits of `sqrt p`. -/
def sqrtFrac32 (p : ℕ) : ℕ := Nat.sqrt (p * 2 ^ 64) % 2 ^ 32

/-- SHA-256 initial hash value, from the square roots of the first 8 primes. -/
def shaInit : Hash8 :=
  ⟨sqrtFrac32 2, sqrtFrac32 3, sqrtFrac32 5, sqrtFrac32 7,
   sqrtFrac32 11, sqrtFrac32 13, sqrtFrac32 17, sqrtFrac32 19⟩

/-- Rotate a 32-bit word right by `n`. -/
def rotr (n x : ℕ) : ℕ := (x >>> n ||| x <<< (32 - n)) % 2 ^ 32

/-- SHA-256 `Ch(x,y,z)`. -/
def shaCh (x y z : ℕ) : ℕ := (x &&& y) ^^^ (((2 ^ 32 - 1) ^^^ x) &&& z)

/-- SHA-256 `Maj(x,y,z)`. -/
def shaMaj (x y z : ℕ) : ℕ := (x &&& y) ^^^ (x &&& z) ^^^ (y &&& z)

/-- SHA-256 `Σ₀`. -/
def bigSigma0 (x : ℕ) : ℕ := rotr 2 x ^^^ rotr 13 x ^^^ rotr 22 x

/-- SHA-256 `Σ₁`. -/
def bigSigma1 (x : ℕ) : ℕ := rotr 6 x ^^^ rotr 11 x ^^^ rotr 25 x

/-- SHA-256 `σ₀`. -/
def smallSigma0 (x : ℕ) : ℕ := rotr 7 x ^^^ rotr 18 x ^^^ x >>> 3

/-- SHA-256 `σ₁`. -/
def smallSigma1 (x : ℕ) : ℕ := rotr 17 x ^^^ rotr 19 x ^^^ x >>> 10

/-- Group a byte list into big-endian 32-bit words. -/
def bytesToWords : List ℕ → List ℕ
  | b0 :: b1 :: b2 :: b3 :: rest =>
    (b0 * 2 ^ 24 + b1 * 2 ^ 16 + b2 * 2 ^ 8 + b3) % 2 ^ 32 :: bytesToWords rest
  | _ => []

/-- Append the next word of the SHA-256 message schedule. -/
def scheduleStep (ws : List ℕ) : List ℕ :=
  let n := ws.length
  ws ++ [(smallSigma1 (ws.getD (n - 2) 0) + ws.getD (n - 7) 0 +
          smallSigma0 (ws.getD (n - 15) 0) + ws.getD (n - 16) 0) % 2 ^ 32]

/-- One SHA-256 round, consuming one `(k, w)` pair. -/
def roundStep (st : Hash8) (kw : ℕ × ℕ) : Hash8 :=
  let t1 := (st.h + bigSigma1 st.e + shaCh st.e st.f st.g + kw.1 + kw.2) % 2 ^ 32
  let t2 := (bigSigma0 st.a + shaMaj st.a st.b st.c) % 2 ^ 32
  ⟨(t1 + t2) % 2 ^ 32, st.a, st.b, st.c, (st.d + t1) % 2 ^ 32, st.e, st.f, st.g⟩

/-- SHA-256 compression of one 64-byte block. -/
def compress (st : Hash8) (block : List ℕ) : Hash8 :=
  let w := scheduleStep^[48] (bytesToWords block)
  let r := (shaK.zip w).foldl roundStep st
  ⟨(st.a + r.a) % 2 ^ 32, (st.b + r.b) % 2 ^ 32, (st.c + r.c) % 2 ^ 32,
   (st.d + r.d) % 2 ^ 32, (st.e + r.e) % 2 ^ 32, (st.f + r.f) % 2 ^ 32,
   (st.g + r.g) % 2 ^ 32, (st.h + r.h) % 2 ^ 32⟩

/-- SHA-256 padding: `0x80`, zeros to 56 mod 64, 8-byte big-endian bit
length. -/
def padMessage (msg : List ℕ) : List ℕ :=
  let ml := msg.length
  let z := (119 - ml % 64) % 64
  msg ++ [128] ++ List.replicate z 0 ++
    (List.range 8).map fun i => (8 * ml) >>> (56 - 8 * i) % 256

/-- Fold the compression function over the 64-byte blocks; each step consumes
at least one byte, so `fuel` bounded below by the list length suffices. -/
def processBlocksAux : ℕ → List ℕ → Hash8 → Hash8
  | 0, _, st => st
  | _ + 1, [], st => st
  | fuel + 1, x :: xs, st => processBlocksAux fuel (xs.drop 63) (compress st (x :: xs.take 63))

/-- Fold the compression function over the 64-byte blocks of a padded
message. -/
def processBlocks (l : List ℕ) (st : Hash8) : Hash8 :=
  processBlocksAux l.length l st

/-- UTF-8 encoding of one character. -/
def utf8Encode (c : Char) : List ℕ :=
  let n := c.toNat
  if n < 0x80 then [n]
  else if n < 0x800 then [0xC0 + n / 64, 0x80 + n % 64]
  else if n < 0x10000 then [0xE0 + n / 4096, 0x80 + n / 64 % 64, 0x80 + n % 64]
  else [0xF0 + n / 262144, 0x80 + n / 4096 % 64, 0x80 + n / 64 % 64, 0x80 + n % 64]

/-- UTF-8 bytes of a string (Python `str.encode()`). -/
def strBytes (s : String) : List ℕ := (s.data.map utf8Encode).flatten

/-- Lowercase hex digit. -/
def hexChar (n : ℕ) : Char := if n < 10 then Char.ofNat (48 + n) else Char.ofNat (87 + n)

/-- Two lowercase hex characters per byte (`bytes.hex()` on values < 256). -/
def bytesToHexChars : List ℕ → List Char
  | [] => []
  | b :: t => hexChar (b / 16 % 16) :: hexChar (b % 16) :: bytesToHexChars t

/-- Big-endian bytes of a 32-bit word. -/
def wordBytes (w : ℕ) : List ℕ := [w / 2 ^ 24 % 256, w / 2 ^ 16 % 256, w / 2 ^ 8 % 256, w % 256]

/-- The 32 digest bytes. -/
def digestBytes (st : Hash8) : List ℕ :=
  wordBytes st.a ++ wordBytes st.b ++ wordBytes st.c ++ wordBytes st.d ++
  wordBytes st.e ++ wordBytes st.f ++ wordBytes st.g ++ wordBytes st.h

/-- The characters of `hashlib.sha256(s.encode()).hexdigest()`. -/
def sha256hexChars (s : String) : List Char :=
  bytesToHexChars (digestBytes (processBlocks (padMessage (strBytes s)) shaInit))

/-- `hashlib.sha256(s.encode()).hexdigest()`. -/
def sha256hex (s : String) : String := String.mk (sha256hexChars s)

/-! ## The disaster table, key generator, bucketer and request handler -/

/-- A disaster prediction record.  `confidence_score` keeps the Python
`int` / `float` distinction (the Error record uses the int `0`). -/
structure Prediction where
  type : String
  confidence_score : PyNum
  risk_level : String
  recommendations : String
  deriving Repr, DecidableEq

/-- `DISASTER_MAPPING` of `src/main.py`: the insertion-ordered dict from
`range(lo, hi)` keys to prediction records, as an association list of
(lo, hi) bounds. -/
def DISASTER_MAPPING : List ((ℕ × ℕ) × Prediction) :=
  [((0, 32), ⟨"Flood", .float 0.87, "High",
      "Evacuate low areas immediately. Secure valuables on higher ground."⟩),
   ((32, 64), ⟨"Storm", .float 0.75, "Medium",
      "Stay indoors and away from windows. Secure loose outdoor items."⟩),
   ((64, 96), ⟨"Drought", .float 0.65, "Medium",
      "Conserve water. Implement water-saving measures. Monitor local advisories."⟩),
   ((96, 128), ⟨"Earthquake", .float 0.45, "Low",
      "Monitor seismic activity reports. Ensure emergency kits are prepared."⟩),
   ((128, 160), ⟨"Wildfire", .float 0.72, "Medium",
      "Clear dry vegetation around property. Stay updated on evacuation notices."⟩),
   ((160, 192), ⟨"Tornado", .float 0.60, "Medium",
      "Identify safe shelter locations. Keep emergency radio accessible."⟩),
   ((192, 224), ⟨"Heatwave", .float 0.80, "High",
      "Stay hydrated. Limit outdoor activities. Check on vulnerable individuals."⟩),
   ((224, 256), ⟨"None", .float 0.01, "Low",
      "No immediate action required. Continue normal activities."⟩)]

/-- The fixed Error prediction returned for an empty or absent hash key. -/
def errorPrediction : Prediction :=
  ⟨"Error", .int 0, "Unknown", "Insufficient data for prediction."⟩

/-- The loop's fallback (commented `shouldn't happen` in the source). -/
def fallbackPrediction : Prediction :=
  ⟨"None", .float 0.01, "Low", "No immediate action required."⟩

/-- Value of one hex digit, by codepoint: `0`-`9`, `a`-`f`, `A`-`F`
(`int(·, 16)` accepts both cases). -/
def hexDigitVal? (c : Char) : Option ℕ :=
  if 48 ≤ c.toNat ∧ c.toNat ≤ 57 then some (c.toNat - 48)
  else if 97 ≤ c.toNat ∧ c.toNat ≤ 102 then some (c.toNat - 87)
  else if 65 ≤ c.toNat ∧ c.toNat ≤ 70 then some (c.toNat - 55)
  else none

/-- Python `int(s, 16)` on a plain string of hex digits (`none` models the
`ValueError` on empty or non-hex input; the exotic accepted forms — signs,
whitespace, underscores — cannot occur in a digest and are not modelled). -/
def hexVal? (l : List Char) : Option ℕ :=
  if l.isEmpty then none
  else l.foldl (fun acc c => acc.bind fun a => (hexDigitVal? c).map fun d => 16 * a + d) (some 0)

/-- The `for hash_range, prediction in DISASTER_MAPPING.items()` loop:
first record whose `range` contains the value. -/
def findPrediction (v : ℕ) : Option Prediction :=
  (DISASTER_MAPPING.find? fun e => decide (e.1.1 ≤ v ∧ v < e.1.2)).map (·.2)

/-- `get_disaster_prediction` of `src/main.py`.  A `None` or empty key is
falsy and yields the Error record; otherwise the first two characters are
parsed as hex (`ValueError` escapes) and looked up in the table, with the
fallback record after the loop. -/
def get_disaster_prediction (hash_key : Option String) : Except String Prediction :=
  match hash_key with
  | none => .ok errorPrediction
  | some s =>
    if s = "" then .ok errorPrediction
    else
      match hexVal? (s.data.take 2) with
      | none => .error "ValueError"
      | some v => .ok ((findPrediction v).getD fallbackPrediction)

/-- The f-string `key_string`: the six fields rendered by `str()` and joined
with underscores, in the source's fixed order. -/
def keyString (p : WeatherParams) : String :=
  pyStr p.temperature ++ "_" ++ pyStr p.humidity ++ "_" ++ pyStr p.wind_speed ++ "_" ++
  pyStr p.pressure ++ "_" ++ pyStr p.cloud_coverage ++ "_" ++ pyStr p.description

/-- `generate_prediction_key` of `src/main.py`: `None` for falsy input (a
six-key dict is always truthy, so only `None` itself), else the SHA-256 hex
digest of `key_string`. -/
def generate_prediction_key : Option WeatherParams → Option String
  | none => none
  | some p => some (sha256hex (keyString p))

/-- Outcome of one handler invocation: a `(body, status)` response from
`jsonify`, or an exception that escapes the handler. -/
inductive HandlerResult where
  | resp (status : ℕ) (body : Json)
  | uncaught (exn : String)
  deriving Repr

/-- `jsonify(\x7b"error": msg\x7d)`. -/
def errBody (msg : String) : Json := .obj [("error", .str msg)]

/-- The snapshot dict as it appears in the success response. -/
def wpToJson (p : WeatherParams) : Json :=
  .obj [("temperature", p.temperature), ("humidity", p.humidity),
        ("wind_speed", p.wind_speed), ("pressure", p.pressure),
        ("cloud_coverage", p.cloud_coverage), ("description", p.description)]

/-- The prediction record as it appears in the success response. -/
def predToJson (p : Prediction) : Json :=
  .obj [("type", .str p.type), ("confidence_score", .num p.confidence_score),
        ("risk_level", .str p.risk_level), ("recommendations", .str p.recommendations)]

/-- The 200 response body assembled at the end of `predict_disaster`. -/
def successBody (lat lon : ℚ) (wp : WeatherParams) (pred : Prediction) : Json :=
  .obj [("location", .obj [("latitude", .num (.float lat)), ("longitude", .num (.float lon))]),
        ("weather_snapshot", wpToJson wp),
        ("disaster_prediction", predToJson pred),
        ("disclaimer", .str "This is a mock prediction for testing purposes only. Not for actual disaster response.")]

/-- `predict_disaster` of `src/main.py`.  `data` is the parsed request body;
`fetchResult` is what `get_weather_data` returned (`none` models its `None`
on a fetch failure).  The `try/except ValueError` around the two `float()`
calls turns only `ValueError` into a 400; a `TypeError` escapes the handler.
Subsequent steps follow the source line by line. -/
def predict_disaster (data : Json) (fetchResult : Option Json) : HandlerResult :=
  if ¬ jsonTruthy data ∨ (jLookup data "latitude").isNone ∨ (jLookup data "longitude").isNone then
    .resp 400 (errBody "Missing required parameters: latitude and longitude")
  else
    match pyFloat ((jLookup data "latitude").getD .null) with
    | .typeError => .uncaught "TypeError"
    | .valueError => .resp 400 (errBody "Invalid coordinates format. Latitude and longitude must be numeric.")
    | .ok latitude =>
      match pyFloat ((jLookup data "longitude").getD .null) with
      | .typeError => .uncaught "TypeError"
      | .valueError => .resp 400 (errBody "Invalid coordinates format. Latitude and longitude must be numeric.")
      | .ok longitude =>
        if ¬ (-90 ≤ latitude ∧ latitude ≤ 90) ∨ ¬ (-180 ≤ longitude ∧ longitude ≤ 180) then
          .resp 400 (errBody "Coordinates out of range. Latitude must be between -90 and 90, longitude between -180 and 180.")
        else if ¬ pyTruthyOpt fetchResult then
          .resp 503 (errBody "Failed to fetch weather data. Please try again later.")
        else
          match parse_weather_data fetchResult with
          | .error e => .uncaught e
          | .ok none => .resp 500 (errBody "Failed to process weather data. Please try again later.")
          | .ok (some weather_params) =>
            match get_disaster_prediction (generate_prediction_key (some weather_params)) with
            | .error e => .uncaught e
            | .ok pred => .resp 200 (successBody latitude longitude weather_params pred)

/-! ## Supporting lemmas -/

/-- The prediction of the `i`-th table row. -/
def nthPrediction (i : ℕ) : Prediction := (DISASTER_MAPPING.getD i ((0, 0), fallbackPrediction)).2

lemma findPrediction_eq_nth (v : ℕ) (hv : v < 256) :
    findPrediction v = some (nthPrediction (v / 32)) := by
  unfold findPrediction nthPrediction
  rcases (by omega : v < 32 ∨ 32 ≤ v ∧ v < 64 ∨ 64 ≤ v ∧ v < 96 ∨ 96 ≤ v ∧ v < 128 ∨
      128 ≤ v ∧ v < 160 ∨ 160 ≤ v ∧ v < 192 ∨ 192 ≤ v ∧ v < 224 ∨ 224 ≤ v) with
    h | h | h | h | h | h | h | h
  · have hq : v / 32 = 0 := by omega
    simp [DISASTER_MAPPING, List.find?_cons, hq, h]
  · have hq : v / 32 = 1 := by omega
    simp [DISASTER_MAPPING, List.find?_cons, hq, h.1, h.2,
      show ¬ v < 32 from by omega]
  · have hq : v / 32 = 2 := by omega
    simp [DISASTER_MAPPING, List.find?_cons, hq, h.1, h.2, show ¬ v < 32 from by omega,
      show ¬(32 ≤ v ∧ v < 64) from by omega]
  · have hq : v / 32 = 3 := by omega
    simp [DISASTER_MAPPING, List.find?_cons, hq, h.1, h.2, show ¬ v < 32 from by omega,
      show ¬(32 ≤ v ∧ v < 64) from by omega, show ¬(64 ≤ v ∧ v < 96) from by omega]
  · have hq : v / 32 = 4 := by omega
    simp [DISASTER_MAPPING, List.find?_cons, hq, h.1, h.2, show ¬ v < 32 from by omega,
      show ¬(32 ≤ v ∧ v < 64) from by omega, show ¬(64 ≤ v ∧ v < 96) from by omega,
      show ¬(96 ≤ v ∧ v < 128) from by omega]
  · have hq : v / 32 = 5 := by omega
    simp [DISASTER_MAPPING, List.find?_cons, hq, h.1, h.2, show ¬ v < 32 from by omega,
      show ¬(32 ≤ v ∧ v < 64) from by omega, show ¬(64 ≤ v ∧ v < 96) from by omega,
      show ¬(96 ≤ v ∧ v < 128) from by omega, show ¬(128 ≤ v ∧ v < 160) from by omega]
  · have hq : v / 32 = 6 := by omega
    simp [DISASTER_MAPPING, List.find?_cons, hq, h.1, h.2, show ¬ v < 32 from by omega,
      show ¬(32 ≤ v ∧ v < 64) from by omega, show ¬(64 ≤ v ∧ v < 96) from by omega,
      show ¬(96 ≤ v ∧ v < 128) from by omega, show ¬(128 ≤ v ∧ v < 160) from by omega,
      show ¬(160 ≤ v ∧ v < 192) from by omega]
  · have hq : v / 32 = 7 := by omega
    simp [DISASTER_MAPPING, List.find?_cons, hq, h, hv, show ¬ v < 32 from by omega,
      show ¬(32 ≤ v ∧ v < 64) from by omega, show ¬(64 ≤ v ∧ v < 96) from by omega,
      show ¬(96 ≤ v ∧ v < 128) from by omega, show ¬(128 ≤ v ∧ v < 160) from by omega,
      show ¬(160 ≤ v ∧ v < 192) from by omega, show ¬(192 ≤ v ∧ v < 224) from by omega]

lemma findPrediction_mem {v : ℕ} {p : Prediction} (h : findPrediction v = some p) :
    p ∈ DISASTER_MAPPING.map (·.2) := by
  unfold findPrediction at h
  obtain ⟨e, he, rfl⟩ := Option.map_eq_some'.mp h
  exact List.mem_map.mpr ⟨e, List.mem_of_find?_eq_some he, rfl⟩

lemma table_no_error : ∀ p ∈ DISASTER_MAPPING.map (·.2), p.type ≠ "Error" := by decide

lemma fallback_no_error : fallbackPrediction.type ≠ "Error" := by decide

lemma hexDigitVal?_hexChar : ∀ n, n < 16 → hexDigitVal? (hexChar n) = some n := by decide

lemma hexChar_lowerHex :
    ∀ n, n < 16 → ('0' ≤ hexChar n ∧ hexChar n ≤ '9') ∨ ('a' ≤ hexChar n ∧ hexChar n ≤ 'f') := by
  decide

lemma hexDigitVal?_lt {c : Char} {d : ℕ} (h : hexDigitVal? c = some d) : d < 16 := by
  unfold hexDigitVal? at h
  split at h
  · next hc => simp only [Option.some.injEq] at h; omega
  · split at h
    · next hc => simp only [Option.some.injEq] at h; omega
    · split at h
      · next hc => simp only [Option.some.injEq] at h; omega
      · exact absurd h (by simp)

lemma hexVal?_take2_lt : ∀ {l : List Char} {v : ℕ}, hexVal? (l.take 2) = some v → v < 256 := by
  intro l v h
  match l with
  | [] => exact absurd h (by simp [hexVal?])
  | [c1] =>
    rw [show hexVal? ([c1].take 2) = (hexDigitVal? c1).map (fun d => 16 * 0 + d) from rfl] at h
    cases hd : hexDigitVal? c1 with
    | none => rw [hd] at h; exact Option.noConfusion h
    | some d =>
      rw [hd] at h
      have hv : 16 * 0 + d = v := Option.some.inj h
      have := hexDigitVal?_lt hd
      omega
  | c1 :: c2 :: t =>
    rw [show hexVal? ((c1 :: c2 :: t).take 2) =
        ((hexDigitVal? c1).map fun d => 16 * 0 + d).bind
          (fun a => (hexDigitVal? c2).map fun d => 16 * a + d) from rfl] at h
    cases hd1 : hexDigitVal? c1 with
    | none => rw [hd1] at h; exact Option.noConfusion h
    | some d1 =>
      rw [hd1] at h
      cases hd2 : hexDigitVal? c2 with
      | none => rw [hd2] at h; exact Option.noConfusion h
      | some d2 =>
        rw [hd2] at h
        have hv : 16 * (16 * 0 + d1) + d2 = v := Option.some.inj h
        have h1 := hexDigitVal?_lt hd1
        have h2 := hexDigitVal?_lt hd2
        omega

lemma length_bytesToHexChars (bs : List ℕ) : (bytesToHexChars bs).length = 2 * bs.length := by
  induction bs with
  | nil => rfl
  | cons b t ih => simp [bytesToHexChars, ih]; omega

lemma mem_bytesToHexChars {c : Char} {bs : List ℕ} (h : c ∈ bytesToHexChars bs) :
    ∃ n, n < 16 ∧ c = hexChar n := by
  induction bs with
  | nil => cases h
  | cons b t ih =>
    cases h with
    | head => exact ⟨b / 16 % 16, Nat.mod_lt _ (by norm_num), rfl⟩
    | tail _ h2 =>
      cases h2 with
      | head => exact ⟨b % 16, Nat.mod_lt _ (by norm_num), rfl⟩
      | tail _ h3 => exact ih h3

lemma digestBytes_length (st : Hash8) : (digestBytes st).length = 32 := by
  simp [digestBytes, wordBytes]

lemma length_sha256hexChars (s : String) : (sha256hexChars s).length = 64 := by
  rw [sha256hexChars, length_bytesToHexChars, digestBytes_length]

lemma sha256hexChars_cons (s : String) :
    ∃ x y t, x < 16 ∧ y < 16 ∧ sha256hexChars s = hexChar x :: hexChar y :: t := by
  refine ⟨(processBlocks (padMessage (strBytes s)) shaInit).a / 2 ^ 24 % 256 / 16 % 16,
    (processBlocks (padMessage (strBytes s)) shaInit).a / 2 ^ 24 % 256 % 16,
    bytesToHexChars ((digestBytes (processBlocks (padMessage (strBytes s)) shaInit)).tail),
    Nat.mod_lt _ (by norm_num), Nat.mod_lt _ (by norm_num), rfl⟩

lemma hexVal?_pair {x y : ℕ} (t : List Char) (hx : x < 16) (hy : y < 16) :
    hexVal? ((hexChar x :: hexChar y :: t).take 2) = some (16 * x + y) := by
  simp [hexVal?, hexDigitVal?_hexChar x hx, hexDigitVal?_hexChar y hy]

lemma sha256hex_ne_empty (s : String) : sha256hex s ≠ "" := by
  intro h
  have h2 : (sha256hexChars s).length = ("".data).length := by rw [← h]; rfl
  rw [length_sha256hexChars] at h2
  have h3 : ("".data).length = 0 := rfl
  omega

lemma get_disaster_prediction_sha (ks : String) :
    ∃ v, v < 256 ∧
      get_disaster_prediction (some (sha256hex ks)) = .ok (nthPrediction (v / 32)) := by
  obtain ⟨x, y, t, hx, hy, hchars⟩ := sha256hexChars_cons ks
  have hdata : (sha256hex ks).data = hexChar x :: hexChar y :: t := hchars
  refine ⟨16 * x + y, by omega, ?_⟩
  have hm : get_disaster_prediction (some (sha256hex ks)) =
      match hexVal? ((sha256hex ks).data.take 2) with
      | none => .error "ValueError"
      | some v => .ok ((findPrediction v).getD fallbackPrediction) := by
    simp only [get_disaster_prediction]
    rw [if_neg (sha256hex_ne_empty ks)]
  rw [hm, hdata, hexVal?_pair t hx hy]
  show Except.ok ((findPrediction (16 * x + y)).getD fallbackPrediction) =
    Except.ok (nthPrediction ((16 * x + y) / 32))
  rw [findPrediction_eq_nth _ (by omega)]
  rfl

lemma nthPrediction_mem (v : ℕ) (hv : v < 256) :
    nthPrediction (v / 32) ∈ DISASTER_MAPPING.map (·.2) :=
  findPrediction_mem (findPrediction_eq_nth v hv)

/-! ## Claims about the bucketer and key generator -/

/-- C1: the 8 ranges of `DISASTER_MAPPING` partition the byte values 0..255
with no gap and no overlap — every `n ≤ 255` lies in exactly one range — and
the lookup loop of `get_disaster_prediction` always finds a record, so the
fallback return after the loop is unreachable for byte values. -/
theorem C1_ranges_partition (n : Fin 256) :
    (DISASTER_MAPPING.countP fun e => decide (e.1.1 ≤ n.val ∧ n.val < e.1.2)) = 1 ∧
    (findPrediction n.val).isSome := by
  revert n; decide

/-- C2: `generate_prediction_key` is a pure function of the six-field record:
it hashes the underscore-joined renderings of the six fields in the source's
fixed order (`keyString`) with SHA-256, and the digest is always a
64-character string of lowercase hex characters; identical records yield
identical digests. -/
theorem C2_key_deterministic_64_hex (p p' : WeatherParams) (hpp : p = p') :
    ∃ d, generate_prediction_key (some p) = some d ∧
      d = sha256hex (keyString p) ∧
      d.length = 64 ∧
      (∀ c ∈ d.data, ('0' ≤ c ∧ c ≤ '9') ∨ ('a' ≤ c ∧ c ≤ 'f')) ∧
      generate_prediction_key (some p) = generate_prediction_key (some p') := by
  subst hpp
  refine ⟨sha256hex (keyString p), rfl, rfl, ?_, ?_, rfl⟩
  · show (sha256hexChars (keyString p)).length = 64
    exact length_sha256hexChars _
  · intro c hc
    obtain ⟨n, hn, rfl⟩ := @mem_bytesToHexChars _ (digestBytes _) hc
    exact hexChar_lowerHex n hn

/-- C2 witness: evaluated at the spec's round-trip snapshot record. -/
theorem C2_key_deterministic_64_hex_witness :
    ∃ d, generate_prediction_key (some ⟨.num (.float 23.5), .num (.int 60), .num (.float 3.2),
        .num (.int 1012), .num (.int 40), .str "clear sky"⟩) = some d ∧ d.length = 64 := by
  obtain ⟨d, h1, _, h3, _, _⟩ := C2_key_deterministic_64_hex
    ⟨.num (.float 23.5), .num (.int 60), .num (.float 3.2),
     .num (.int 1012), .num (.int 40), .str "clear sky"⟩
    ⟨.num (.float 23.5), .num (.int 60), .num (.float 3.2),
     .num (.int 1012), .num (.int 40), .str "clear sky"⟩ rfl
  exact ⟨d, h1, h3⟩

/-- C3: on a non-empty digest string, `get_disaster_prediction` parses the
first two hex characters as an unsigned integer, which lies in [0,255], and
returns the record of the containing range per the table; in particular a
first byte of 150 (0x96) yields the Wildfire prediction. -/
theorem C3_bucketer_follows_table (s : String) (v : ℕ) (hs : s ≠ "")
    (hv : hexVal? (s.data.take 2) = some v) :
    v < 256 ∧
    ∃ p, get_disaster_prediction (some s) = .ok p ∧
      (v < 32 → p.type = "Flood" ∧ p.confidence_score = .float 0.87 ∧ p.risk_level = "High") ∧
      (32 ≤ v → v < 64 → p.type = "Storm" ∧ p.confidence_score = .float 0.75 ∧ p.risk_level = "Medium") ∧
      (64 ≤ v → v < 96 → p.type = "Drought" ∧ p.confidence_score = .float 0.65 ∧ p.risk_level = "Medium") ∧
      (96 ≤ v → v < 128 → p.type = "Earthquake" ∧ p.confidence_score = .float 0.45 ∧ p.risk_level = "Low") ∧
      (128 ≤ v → v < 160 → p.type = "Wildfire" ∧ p.confidence_score = .float 0.72 ∧ p.risk_level = "Medium") ∧
      (160 ≤ v → v < 192 → p.type = "Tornado" ∧ p.confidence_score = .float 0.60 ∧ p.risk_level = "Medium") ∧
      (192 ≤ v → v < 224 → p.type = "Heatwave" ∧ p.confidence_score = .float 0.80 ∧ p.risk_level = "High") ∧
      (224 ≤ v → v < 256 → p.type = "None" ∧ p.confidence_score = .float 0.01 ∧ p.risk_level = "Low") ∧
      (v = 150 → p.type = "Wildfire") := by
  have h256 : v < 256 := hexVal?_take2_lt hv
  refine ⟨h256, nthPrediction (v / 32), ?_, ?_⟩
  · have hm : get_disaster_prediction (some s) =
        match hexVal? (s.data.take 2) with
        | none => .error "ValueError"
        | some v => .ok ((findPrediction v).getD fallbackPrediction) := by
      simp only [get_disaster_prediction]
      rw [if_neg hs]
    rw [hm, hv]
    show Except.ok ((findPrediction v).getD fallbackPrediction) =
      Except.ok (nthPrediction (v / 32))
    rw [findPrediction_eq_nth _ h256]
    rfl
  · refine ⟨?_, ?_, ?_, ?_, ?_, ?_, ?_, ?_, ?_⟩
    · intro h1; rw [show v / 32 = 0 from by omega]; exact ⟨rfl, rfl, rfl⟩
    · intro h1 h2; rw [show v / 32 = 1 from by omega]; exact ⟨rfl, rfl, rfl⟩
    · intro h1 h2; rw [show v / 32 = 2 from by omega]; exact ⟨rfl, rfl, rfl⟩
    · intro h1 h2; rw [show v / 32 = 3 from by omega]; exact ⟨rfl, rfl, rfl⟩
    · intro h1 h2; rw [show v / 32 = 4 from by omega]; exact ⟨rfl, rfl, rfl⟩
    · intro h1 h2; rw [show v / 32 = 5 from by omega]; exact ⟨rfl, rfl, rfl⟩
    · intro h1 h2; rw [show v / 32 = 6 from by omega]; exact ⟨rfl, rfl, rfl⟩
    · intro h1 h2; rw [show v / 32 = 7 from by omega]; exact ⟨rfl, rfl, rfl⟩
    · intro h1; subst h1; rfl

/-- C3 witness: a digest string beginning `96` (byte value 150) maps to
Wildfire. -/
theorem C3_bucketer_follows_table_witness :
    ("96af" : String) ≠ "" ∧ hexVal? (("96af" : String).data.take 2) = some 150 ∧
    ∃ p, get_disaster_prediction (some "96af") = .ok p ∧ p.type = "Wildfire" := by
  obtain ⟨-, p, hp, -, -, -, -, -, -, -, -, hw⟩ :=
    C3_bucketer_follows_table "96af" 150 (by decide) (by decide)
  exact ⟨by decide, by decide, p, hp, hw rfl⟩

/-- C8: an absent or empty hash key yields exactly the fixed Error record,
and no other input can produce a record whose type is `"Error"`. -/
theorem C8_error_only_when_empty :
    get_disaster_prediction none = .ok errorPrediction ∧
    get_disaster_prediction (some "") = .ok errorPrediction ∧
    errorPrediction = ⟨"Error", .int 0, "Unknown", "Insufficient data for prediction."⟩ ∧
    ∀ s : String, s ≠ "" → ∀ p, get_disaster_prediction (some s) = .ok p → p.type ≠ "Error" := by
  refine ⟨rfl, rfl, rfl, ?_⟩
  intro s hs p hp
  have hm : get_disaster_prediction (some s) =
      match hexVal? (s.data.take 2) with
      | none => .error "ValueError"
      | some v => .ok ((findPrediction v).getD fallbackPrediction) := by
    simp only [get_disaster_prediction]; rw [if_neg hs]
  rw [hm] at hp
  cases hv : hexVal? (s.data.take 2) with
  | none => rw [hv] at hp; exact Except.noConfusion hp
  | some v =>
    rw [hv] at hp
    have hp2 : (findPrediction v).getD fallbackPrediction = p := Except.ok.inj hp
    cases hf : findPrediction v with
    | none =>
      rw [hf] at hp2
      rw [← hp2]
      exact fallback_no_error
    | some q =>
      rw [hf] at hp2
      have hqp : q = p := hp2
      subst hqp
      exact table_no_error q (findPrediction_mem hf)

/-- C8 witness: evaluated at the absent key and at the digest prefix `ab`. -/
theorem C8_error_only_when_empty_witness :
    get_disaster_prediction none = .ok errorPrediction ∧ ("ab" : String) ≠ "" ∧
    ∀ p, get_disaster_prediction (some "ab") = .ok p → p.type ≠ "Error" :=
  ⟨C8_error_only_when_empty.1, by decide, C8_error_only_when_empty.2.2.2 "ab" (by decide)⟩

/-! ## Claims about the weather normalizer -/

/-- A payload carrying all six extracted fields at their expected paths. -/
def fullPayload (t h w pr c dsc : Json) : Json :=
  .obj [("main", .obj [("temp", t), ("humidity", h), ("pressure", pr)]),
        ("wind", .obj [("speed", w)]),
        ("clouds", .obj [("all", c)]),
        ("weather", .arr [.obj [("description", dsc)]])]

lemma pyRound1_error_eq {u : Json} {e : String} (h : pyRound1 u = .error e) : e = "TypeError" := by
  cases u with
  | num n => cases n <;> exact Except.noConfusion h
  | bool b => exact Except.noConfusion h
  | null => exact (Except.error.inj h).symm
  | str s => exact (Except.error.inj h).symm
  | arr l => exact (Except.error.inj h).symm
  | obj l => exact (Except.error.inj h).symm

lemma parse_fullPayload (t h w pr c dsc : Json) :
    parse_weather_data (some (fullPayload t h w pr c dsc)) =
      match pyRound1 t with
      | .ok t' => .ok (some (⟨t', h, w, pr, c, dsc⟩ : WeatherParams))
      | .error e => if e = "KeyError" ∨ e = "IndexError" then .ok none else .error e := by
  have hbody : parse_weather_data (some (fullPayload t h w pr c dsc)) =
      match Except.bind (pyRound1 t)
          (fun t' => .ok (⟨t', h, w, pr, c, dsc⟩ : WeatherParams)) with
      | .ok p => .ok (some p)
      | .error e => if e = "KeyError" ∨ e = "IndexError" then .ok none else .error e := rfl
  rw [hbody]
  cases pyRound1 t with
  | ok t' => rfl
  | error e => rfl

/-- C5 counterexample: a bare-string payload — one not matching the expected
shape at all — raises an uncaught AttributeError instead of returning the
failure result `None`. -/
theorem C5_malformed_payload_counterexample :
    parse_weather_data (some (.str "hello")) = .error "AttributeError" ∧
    parse_weather_data (some (.str "hello")) ≠ .ok none := by
  refine ⟨rfl, ?_⟩
  intro h
  rw [show parse_weather_data (some (.str "hello")) = .error "AttributeError" from rfl] at h
  exact Except.noConfusion h

/-- C5 (amended): on a truthy payload of the expected dict shape the six
fields are extracted with defaults 0 / "unknown" when missing, temperature
is rounded to one decimal while the other five pass through unchanged, and a
shape violation raising KeyError or IndexError (e.g. an empty weather list)
yields the failure result `None`; a payload of the wrong kind instead raises
an uncaught error (see the counterexample). -/
theorem C5_parse_defaults_and_rounding :
    (∀ t h w pr c dsc, parse_weather_data (some (fullPayload t h w pr c dsc)) =
        (pyRound1 t).map fun t' => some (⟨t', h, w, pr, c, dsc⟩ : WeatherParams)) ∧
    (∀ q : ℚ, pyRound1 (.num (.float q)) =
        .ok (.num (.float ((roundHalfEven (q * 10) : ℚ) / 10)))) ∧
    (∀ n : ℤ, pyRound1 (.num (.int n)) = .ok (.num (.int n))) ∧
    parse_weather_data (some (.obj [("main", .obj [])])) =
      .ok (some ⟨.num (.int 0), .num (.int 0), .num (.int 0), .num (.int 0),
                 .num (.int 0), .str "unknown"⟩) ∧
    parse_weather_data (some (.obj [("weather", .arr [])])) = .ok none ∧
    parse_weather_data none = .ok none := by
  refine ⟨?_, fun _ => rfl, fun _ => rfl, rfl, rfl, rfl⟩
  intro t h w pr c dsc
  rw [parse_fullPayload]
  cases hr : pyRound1 t with
  | ok t' => rfl
  | error e =>
    have he := pyRound1_error_eq hr
    subst he
    rfl

/-! ## Claims about the request handler -/

lemma jLookup_ne_nil {l : List (String × Json)} {k : String} {v : Json}
    (h : jLookup (.obj l) k = some v) : l.isEmpty = false := by
  cases l with
  | nil => simp [jLookup] at h
  | cons a t => rfl

lemma predict_disaster_validated
    (l : List (String × Json)) (latv lonv : Json) (la lo : ℚ) (fr : Option Json)
    (hlat : jLookup (.obj l) "latitude" = some latv)
    (hlon : jLookup (.obj l) "longitude" = some lonv)
    (hfla : pyFloat latv = .ok la)
    (hflo : pyFloat lonv = .ok lo)
    (hla : -90 ≤ la ∧ la ≤ 90) (hlo2 : -180 ≤ lo ∧ lo ≤ 180) :
    predict_disaster (.obj l) fr =
      if ¬ pyTruthyOpt fr then
        .resp 503 (errBody "Failed to fetch weather data. Please try again later.")
      else
        match parse_weather_data fr with
        | .error e => .uncaught e
        | .ok none => .resp 500 (errBody "Failed to process weather data. Please try again later.")
        | .ok (some wp) =>
          match get_disaster_prediction (generate_prediction_key (some wp)) with
          | .error e => .uncaught e
          | .ok pred => .resp 200 (successBody la lo wp pred) := by
  have hne := jLookup_ne_nil hlat
  rw [predict_disaster]
  rw [if_neg (by simp [jsonTruthy, hne, hlat, hlon])]
  rw [hlat, hlon]
  simp only [Option.getD_some]
  rw [hfla, hflo]
  dsimp only
  rw [if_neg (by simp [hla.1, hla.2, hlo2.1, hlo2.2])]

/-- C4 counterexample: with `latitude` present but `null`, `float(None)`
raises `TypeError`, which the `except ValueError` clause does not catch: the
handler does not return the 400 invalid-format response. -/
theorem C4_nonnumeric_counterexample :
    predict_disaster (.obj [("latitude", .null), ("longitude", .num (.int 10))]) none =
      .uncaught "TypeError" ∧
    ∀ b, predict_disaster (.obj [("latitude", .null), ("longitude", .num (.int 10))]) none ≠
      .resp 400 b := by
  refine ⟨rfl, ?_⟩
  intro b h
  rw [show predict_disaster (.obj [("latitude", .null), ("longitude", .num (.int 10))]) none =
      .uncaught "TypeError" from rfl] at h
  exact HandlerResult.noConfusion h

/-- C4 (amended): when both keys are present and the first failing `float()`
conversion raises `ValueError` (a non-numeric string), the handler returns
400 with the invalid-format message; values that raise `TypeError` (e.g.
`null`) instead crash the handler (see the counterexample). -/
theorem C4_invalid_format_400 (l : List (String × Json)) (latv lonv : Json) (fr : Option Json)
    (hlat : jLookup (.obj l) "latitude" = some latv)
    (hlon : jLookup (.obj l) "longitude" = some lonv)
    (hval : pyFloat latv = .valueError ∨ ∃ q, pyFloat latv = .ok q ∧ pyFloat lonv = .valueError) :
    predict_disaster (.obj l) fr =
      .resp 400 (errBody "Invalid coordinates format. Latitude and longitude must be numeric.") := by
  have hne := jLookup_ne_nil hlat
  rw [predict_disaster]
  rw [if_neg (by simp [jsonTruthy, hne, hlat, hlon])]
  rw [hlat, hlon]
  simp only [Option.getD_some]
  rcases hval with hv | ⟨q, hq, hv⟩
  · rw [hv]
  · rw [hq, hv]

/-- C4 witness: the scenario body with latitude `"abc"`. -/
theorem C4_invalid_format_400_witness :
    predict_disaster (.obj [("latitude", .str "abc"), ("longitude", .num (.int 10))]) none =
      .resp 400 (errBody "Invalid coordinates format. Latitude and longitude must be numeric.") :=
  C4_invalid_format_400 _ _ _ none rfl rfl (Or.inl rfl)

/-- C7: numerically parseable coordinates outside the valid rectangle give
the 400 out-of-range response, while the boundary values ±90 / ±180 pass
validation and reach the weather fetch (shown by the 503 fetch response). -/
theorem C7_range_validation :
    (∀ (l : List (String × Json)) (latv lonv : Json) (la lo : ℚ) (fr : Option Json),
      jLookup (.obj l) "latitude" = some latv →
      jLookup (.obj l) "longitude" = some lonv →
      pyFloat latv = .ok la → pyFloat lonv = .ok lo →
      (¬ (-90 ≤ la ∧ la ≤ 90) ∨ ¬ (-180 ≤ lo ∧ lo ≤ 180)) →
      predict_disaster (.obj l) fr = .resp 400
        (errBody "Coordinates out of range. Latitude must be between -90 and 90, longitude between -180 and 180.")) ∧
    predict_disaster (.obj [("latitude", .num (.int 90)), ("longitude", .num (.int 180))]) none =
      .resp 503 (errBody "Failed to fetch weather data. Please try again later.") ∧
    predict_disaster (.obj [("latitude", .num (.int (-90))), ("longitude", .num (.int (-180)))]) none =
      .resp 503 (errBody "Failed to fetch weather data. Please try again later.") := by
  refine ⟨?_, ?_, ?_⟩
  · intro l latv lonv la lo fr hlat hlon hfla hflo hrange
    have hne := jLookup_ne_nil hlat
    rw [predict_disaster]
    rw [if_neg (by simp [jsonTruthy, hne, hlat, hlon])]
    rw [hlat, hlon]
    simp only [Option.getD_some]
    rw [hfla, hflo]
    dsimp only
    rw [if_pos hrange]
  · rw [predict_disaster_validated [("latitude", .num (.int 90)), ("longitude", .num (.int 180))]
      (.num (.int 90)) (.num (.int 180)) (((90 : ℤ) : ℚ)) (((180 : ℤ) : ℚ)) none
      rfl rfl rfl rfl (by norm_num) (by norm_num)]
    rfl
  · rw [predict_disaster_validated [("latitude", .num (.int (-90))), ("longitude", .num (.int (-180)))]
      (.num (.int (-90))) (.num (.int (-180))) (((-90 : ℤ) : ℚ)) (((-180 : ℤ) : ℚ)) none
      rfl rfl rfl rfl (by norm_num) (by norm_num)]
    rfl

/-- C7 witness: the scenario latitude 200. -/
theorem C7_range_validation_witness :
    predict_disaster (.obj [("latitude", .num (.int 200)), ("longitude", .num (.int 10))]) none =
      .resp 400
        (errBody "Coordinates out of range. Latitude must be between -90 and 90, longitude between -180 and 180.") :=
  C7_range_validation.1 _ _ _ _ _ none rfl rfl rfl rfl (Or.inl (by norm_num))

/-- C6: for a validated request a failed fetch yields the 503 fetch-error
response, a truthy fetch whose normalization yields `None` gives the 500
processing-error response, and every response the handler returns is either
the complete success body or a single `\x7b"error": msg\x7d` object. -/
theorem C6_error_responses :
    (∀ (l : List (String × Json)) (latv lonv : Json) (la lo : ℚ),
      jLookup (.obj l) "latitude" = some latv →
      jLookup (.obj l) "longitude" = some lonv →
      pyFloat latv = .ok la → pyFloat lonv = .ok lo →
      -90 ≤ la ∧ la ≤ 90 → -180 ≤ lo ∧ lo ≤ 180 →
      predict_disaster (.obj l) none =
        .resp 503 (errBody "Failed to fetch weather data. Please try again later.")) ∧
    (∀ (l : List (String × Json)) (latv lonv : Json) (la lo : ℚ) (fr : Option Json),
      jLookup (.obj l) "latitude" = some latv →
      jLookup (.obj l) "longitude" = some lonv →
      pyFloat latv = .ok la → pyFloat lonv = .ok lo →
      -90 ≤ la ∧ la ≤ 90 → -180 ≤ lo ∧ lo ≤ 180 →
      pyTruthyOpt fr = true →
      parse_weather_data fr = .ok none →
      predict_disaster (.obj l) fr =
        .resp 500 (errBody "Failed to process weather data. Please try again later.")) ∧
    (∀ (data : Json) (fr : Option Json) (st : ℕ) (b : Json),
      predict_disaster data fr = .resp st b →
      (st = 200 ∧ ∃ la lo wp pred, b = successBody la lo wp pred) ∨ ∃ m, b = errBody m) := by
  refine ⟨?_, ?_, ?_⟩
  · intro l latv lonv la lo hlat hlon hfla hflo hla hlo2
    rw [predict_disaster_validated l latv lonv la lo none hlat hlon hfla hflo hla hlo2]
    rfl
  · intro l latv lonv la lo fr hlat hlon hfla hflo hla hlo2 htr hparse
    rw [predict_disaster_validated l latv lonv la lo fr hlat hlon hfla hflo hla hlo2]
    rw [if_neg (by simp [htr]), hparse]
  · intro data fr st b h
    rw [predict_disaster] at h
    split at h
    · cases h
      exact Or.inr ⟨_, rfl⟩
    · split at h
      · exact HandlerResult.noConfusion h
      · cases h
        exact Or.inr ⟨_, rfl⟩
      · split at h
        · exact HandlerResult.noConfusion h
        · cases h
          exact Or.inr ⟨_, rfl⟩
        · split at h
          · cases h
            exact Or.inr ⟨_, rfl⟩
          · split at h
            · cases h
              exact Or.inr ⟨_, rfl⟩
            · split at h
              · exact HandlerResult.noConfusion h
              · cases h
                exact Or.inr ⟨_, rfl⟩
              · split at h
                · exact HandlerResult.noConfusion h
                · cases h
                  exact Or.inl ⟨rfl, _, _, _, _, rfl⟩

/-- C6 witness: evaluated at the body latitude 1, longitude 2 with a failed
fetch, and with a truthy payload whose weather list is empty. -/
theorem C6_error_responses_witness :
    predict_disaster (.obj [("latitude", .num (.int 1)), ("longitude", .num (.int 2))]) none =
      .resp 503 (errBody "Failed to fetch weather data. Please try again later.") ∧
    predict_disaster (.obj [("latitude", .num (.int 1)), ("longitude", .num (.int 2))])
        (some (.obj [("weather", .arr [])])) =
      .resp 500 (errBody "Failed to process weather data. Please try again later.") ∧
    ((503 = 200 ∧ ∃ la lo wp pred,
        errBody "Failed to fetch weather data. Please try again later." = successBody la lo wp pred) ∨
      ∃ m, errBody "Failed to fetch weather data. Please try again later." = errBody m) := by
  have h1 := C6_error_responses.1 [("latitude", .num (.int 1)), ("longitude", .num (.int 2))]
    (.num (.int 1)) (.num (.int 2)) (((1 : ℤ) : ℚ)) (((2 : ℤ) : ℚ))
    rfl rfl rfl rfl (by norm_num) (by norm_num)
  have h2 := C6_error_responses.2.1 [("latitude", .num (.int 1)), ("longitude", .num (.int 2))]
    (.num (.int 1)) (.num (.int 2)) (((1 : ℤ) : ℚ)) (((2 : ℤ) : ℚ))
    (some (.obj [("weather", .arr [])]))
    rfl rfl rfl rfl (by norm_num) (by norm_num) rfl rfl
  exact ⟨h1, h2, C6_error_responses.2.2 _ _ _ _ h1⟩

lemma sha256hex_length (s : String) : (sha256hex s).length = 64 := by
  show (sha256hexChars s).length = 64
  exact length_sha256hexChars s

/-- C9: whenever the handler returns a 200 response, the snapshot parsed, the
key generator produced a non-empty 64-character digest (never `None`), and
the prediction in the response body is one of the 8 table records — never the
Error record. -/
theorem C9_success_prediction_from_table (data : Json) (fr : Option Json) (b : Json)
    (h : predict_disaster data fr = .resp 200 b) :
    ∃ wp pred d, parse_weather_data fr = .ok (some wp) ∧
      generate_prediction_key (some wp) = some d ∧
      d.length = 64 ∧ d ≠ "" ∧
      get_disaster_prediction (some d) = .ok pred ∧
      pred ∈ DISASTER_MAPPING.map (·.2) ∧ pred.type ≠ "Error" ∧
      jLookup b "disaster_prediction" = some (predToJson pred) := by
  rw [predict_disaster] at h
  split at h
  · simp at h
  · split at h
    · simp at h
    · simp at h
    · split at h
      · simp at h
      · simp at h
      · split at h
        · simp at h
        · split at h
          · simp at h
          · split at h
            · simp at h
            · simp at h
            · rename_i wp hparse
              split at h
              · simp at h
              · rename_i pred hgd
                injection h with h1 h2
                subst h2
                have hgd' : get_disaster_prediction (some (sha256hex (keyString wp))) =
                    .ok pred := hgd
                obtain ⟨v, hv, hg2⟩ := get_disaster_prediction_sha (keyString wp)
                rw [hgd'] at hg2
                have hpred : pred = nthPrediction (v / 32) := Except.ok.inj hg2
                refine ⟨wp, pred, sha256hex (keyString wp), hparse, rfl, sha256hex_length _,
          sha256hex_ne_empty _, hgd', ?_, ?_, rfl⟩
                · rw [hpred]; exact nthPrediction_mem v hv
                · rw [hpred]; exact table_no_error _ (nthPrediction_mem v hv)

/-- The weather payload of the spec's round-trip example. -/
def samplePayload : Json :=
  fullPayload (.num (.float 23.5)) (.num (.int 60)) (.num (.float 3.2))
    (.num (.int 1012)) (.num (.int 40)) (.str "clear sky")

/-- The snapshot extracted from `samplePayload`. -/
def sampleSnapshot : WeatherParams :=
  ⟨.num (.float 23.5), .num (.int 60), .num (.float 3.2),
   .num (.int 1012), .num (.int 40), .str "clear sky"⟩

lemma round_23_5 : ((roundHalfEven ((23.5 : ℚ) * 10) : ℚ) / 10) = 23.5 := by
  have h235 : roundHalfEven ((23.5 : ℚ) * 10) = 235 := by
    unfold roundHalfEven
    norm_num
  rw [h235]
  norm_num

lemma parse_samplePayload : parse_weather_data (some samplePayload) = .ok (some sampleSnapshot) := by
  rw [show samplePayload = fullPayload (.num (.float 23.5)) (.num (.int 60)) (.num (.float 3.2))
      (.num (.int 1012)) (.num (.int 40)) (.str "clear sky") from rfl]
  rw [parse_fullPayload]
  rw [show pyRound1 (.num (.float 23.5)) =
      .ok (.num (.float ((roundHalfEven ((23.5 : ℚ) * 10) : ℚ) / 10))) from rfl]
  rw [round_23_5]
  rfl

lemma pyFloat_45 : pyFloat (.str "45.0") = .ok 45 := by
  have h1 : pyFloat (.str "45.0") =
      .ok (1 * ((digitsVal ['4', '5'] : ℚ) + (digitsVal ['0'] : ℚ) / (10 : ℚ) ^ 1)) := rfl
  rw [h1, show digitsVal ['4', '5'] = 45 from rfl, show digitsVal ['0'] = 0 from rfl]
  norm_num

lemma predict_disaster_success_eq
    (l : List (String × Json)) (latv lonv : Json) (la lo : ℚ) (fr : Option Json)
    (wp : WeatherParams) (pred : Prediction)
    (hlat : jLookup (.obj l) "latitude" = some latv)
    (hlon : jLookup (.obj l) "longitude" = some lonv)
    (hfla : pyFloat latv = .ok la)
    (hflo : pyFloat lonv = .ok lo)
    (hla : -90 <= la /\ la <= 90) (hlo2 : -180 <= lo /\ lo <= 180)
    (htr : pyTruthyOpt fr = true)
    (hparse : parse_weather_data fr = .ok (some wp))
    (hgd : get_disaster_prediction (generate_prediction_key (some wp)) = .ok pred) :
    predict_disaster (.obj l) fr = .resp 200 (successBody la lo wp pred) := by
  rw [predict_disaster_validated l latv lonv la lo fr hlat hlon hfla hflo hla hlo2]
  rw [if_neg (fun hc => hc htr)]
  rw [hparse]
  dsimp only
  rw [hgd]

lemma predict_sample_success :
    predict_disaster (.obj [("latitude", .str "45.0"), ("longitude", .bool true)])
        (some samplePayload) =
      .resp 200 (successBody 45 1 sampleSnapshot
        ((get_disaster_prediction (generate_prediction_key (some sampleSnapshot))).toOption.getD
          errorPrediction)) := by
  obtain ⟨v, hv, hgd⟩ := get_disaster_prediction_sha (keyString sampleSnapshot)
  have hgd2 : get_disaster_prediction (generate_prediction_key (some sampleSnapshot)) =
      .ok (nthPrediction (v / 32)) := hgd
  have hx := predict_disaster_success_eq
    [("latitude", .str "45.0"), ("longitude", .bool true)] (.str "45.0") (.bool true)
    45 1 (some samplePayload) sampleSnapshot (nthPrediction (v / 32))
    rfl rfl pyFloat_45 rfl (by norm_num) (by norm_num) rfl parse_samplePayload hgd2
  rw [hx, hgd2]
  rfl

/-- C9 witness: evaluated at the round-trip body and payload. -/
theorem C9_success_prediction_from_table_witness :
    ∃ wp pred d, parse_weather_data (some samplePayload) = .ok (some wp) ∧
      generate_prediction_key (some wp) = some d ∧
      d.length = 64 ∧ d ≠ "" ∧
      get_disaster_prediction (some d) = .ok pred ∧
      pred ∈ DISASTER_MAPPING.map (·.2) ∧ pred.type ≠ "Error" ∧
      jLookup (successBody 45 1 sampleSnapshot
        ((get_disaster_prediction (generate_prediction_key (some sampleSnapshot))).toOption.getD
          errorPrediction)) "disaster_prediction" = some (predToJson pred) :=
  C9_success_prediction_from_table _ _ _ predict_sample_success

/-- C10: coordinate validation accepts whatever `float()` accepts — the
numeric string `"45.0"` and the boolean `true` (which becomes `1.0`) pass
validation, the request proceeds to the fetch (503 on fetch failure), and on
success the converted float values are echoed in the response's `location`
field. -/
theorem C10_float_coercion_accepted :
    pyFloat (.str "45.0") = .ok 45 ∧
    pyFloat (.bool true) = .ok 1 ∧
    predict_disaster (.obj [("latitude", .str "45.0"), ("longitude", .bool true)]) none =
      .resp 503 (errBody "Failed to fetch weather data. Please try again later.") ∧
    ∃ pred, predict_disaster (.obj [("latitude", .str "45.0"), ("longitude", .bool true)])
        (some samplePayload) =
      .resp 200 (.obj
        [("location", .obj [("latitude", .num (.float 45)), ("longitude", .num (.float 1))]),
         ("weather_snapshot", wpToJson sampleSnapshot),
         ("disaster_prediction", predToJson pred),
         ("disclaimer",
          .str "This is a mock prediction for testing purposes only. Not for actual disaster response.")]) := by
  refine ⟨pyFloat_45, rfl, ?_, ?_⟩
  · rw [predict_disaster_validated [("latitude", .str "45.0"), ("longitude", .bool true)]
      (.str "45.0") (.bool true) 45 1 none rfl rfl pyFloat_45 rfl (by norm_num) (by norm_num)]
    rfl
  · exact ⟨_, predict_sample_success⟩

end DisasterPrediction
